import Mathlib

/-!
Verification of `yolov8_ros/yolov8_ros/tracking_node.py`.

The node synchronizes an image stream with a detection stream, feeds the
detections to an external multi-object tracker, and republishes detections
annotated with track identifiers.  Coordinates are modelled with `Rat`
(the Python code uses floats; the claims under study are about data flow,
ordering and field updates, not rounding).  The external tracker objects
are opaque to the node, so the node state is polymorphic in their types and
the boxmot update call is a function parameter of the frame callback.
-/

namespace TrackingNode

/-- `geometry` point used inside `yolov8_msgs/BoundingBox2D.center.position`. -/
structure Point2D where
  x : Rat
  y : Rat
deriving DecidableEq

/-- `yolov8_msgs` pose: a position plus an orientation angle `theta`. -/
structure Pose2D where
  position : Point2D
  theta : Rat
deriving DecidableEq

/-- 2-D size vector of a bounding box. -/
structure Vector2 where
  x : Rat
  y : Rat
deriving DecidableEq

/-- `yolov8_msgs/BoundingBox2D`: centre pose and size. -/
structure BoundingBox2D where
  center : Pose2D
  size : Vector2
deriving DecidableEq

/-- `yolov8_msgs/Detection` (the fields the node reads or writes, plus the
remaining payload fields it only carries along). -/
structure Detection where
  class_id : Int
  class_name : String
  score : Rat
  id : String
  bbox : BoundingBox2D
  mask : List Point2D
  keypoints : List Point2D
deriving DecidableEq

/-- `std_msgs/Header`. -/
structure Header where
  stamp_sec : Int
  stamp_nanosec : Nat
  frame_id : String
deriving DecidableEq

/-- `sensor_msgs/Image` (header, geometry and raw payload). -/
structure Image where
  header : Header
  height : Nat
  width : Nat
  data : List Nat
deriving DecidableEq

/-- `yolov8_msgs/DetectionArray`. -/
structure DetectionArray where
  header : Header
  detections : List Detection
deriving DecidableEq

/-- One row of the per-detection list built at lines 158-170:
`[cx - w/2, cy - h/2, cx + w/2, cy + h/2, score, class_id]`. -/
def detectionRow (d : Detection) : List Rat :=
  [ d.bbox.center.position.x - d.bbox.size.x / 2,
    d.bbox.center.position.y - d.bbox.size.y / 2,
    d.bbox.center.position.x + d.bbox.size.x / 2,
    d.bbox.center.position.y + d.bbox.size.y / 2,
    d.score,
    (d.class_id : Rat) ]

/-- The parse loop of `detections_cb` (lines 157-170): starts from an empty
list and appends one row per incoming detection, in order. -/
def parseDetections (msg : DetectionArray) : List (List Rat) :=
  msg.detections.foldl (fun acc d => acc ++ [detectionRow d]) []

/-- Python list indexing semantics: an index `i` with `0 ≤ i < n` selects
position `i`; a negative `i` with `-n ≤ i` selects position `n + i`
(counting from the end); anything else raises `IndexError` (here: `none`). -/
def pyIndex (n : Nat) (i : Int) : Option Nat :=
  if 0 ≤ i then
    if i < (n : Int) then some i.toNat else none
  else
    if -(n : Int) ≤ i then some ((n : Int) + i).toNat else none

/-- `l[i]` with Python semantics; `none` models the raised `IndexError`
that the bare `except` at line 196 turns into `continue`. -/
def pyGet {α : Type} (l : List α) (i : Int) : Option α :=
  match pyIndex l.length i with
  | some j => l.get? j
  | none => none

/-- One output row of `boxmot_tracker.update`: seven box columns wrapped
into a `Boxes` object (corner coordinates, optional track id, confidence,
class) plus the last column, the detection index `int(t[-1])`. -/
structure TrackRow where
  x1 : Rat
  y1 : Rat
  x2 : Rat
  y2 : Rat
  id : Option Int
  conf : Rat
  cls : Rat
  det_ind : Int
deriving DecidableEq

/-- `Boxes.xywh` of the tracked box: centre coordinates and width/height
computed from the corner form. -/
def rowXYWH (r : TrackRow) : Rat × Rat × Rat × Rat :=
  ((r.x1 + r.x2) / 2, (r.y1 + r.y2) / 2, r.x2 - r.x1, r.y2 - r.y1)

/-- Lines 212-215: `track_id = ""` unless the box carries a track id, in
which case it is the id rendered as a decimal string. -/
def trackIdStr (r : TrackRow) : String :=
  match r.id with
  | some i => toString i
  | none => ""

/-- Lines 205-216: overwrite the looked-up detection's bbox centre position
and size with the track's xywh box and set its `id` string; every other
field is carried over unchanged. -/
def applyTrack (r : TrackRow) (d : Detection) : Detection :=
  let b := rowXYWH r
  { d with
    bbox := { d.bbox with
      center := { d.bbox.center with position := { x := b.1, y := b.2.1 } },
      size := { x := b.2.2.1, y := b.2.2.2 } },
    id := trackIdStr r }

/-- The guard of lines 201-203: skip the track when a selection is set
(`selected_object_id` not `None` and not `-1`) and the track's id differs
from it. -/
def selSkip (sel : Option Int) (r : TrackRow) : Bool :=
  match sel with
  | none => false
  | some v => if v = -1 then false else decide (r.id ≠ some v)

/-- Body of the `for t in boxmot_tracks` loop for a single row: look the
original detection up by the row's last column (lines 193-198), apply the
selection guard (lines 201-203), and otherwise produce the updated
detection that gets appended (lines 205-219). -/
def processTrack (dets : List Detection) (sel : Option Int) (r : TrackRow) :
    Option Detection :=
  match pyGet dets r.det_ind with
  | none => none
  | some d => if selSkip sel r then none else some (applyTrack r d)

/-- The whole loop of lines 188-219, in row order. -/
def processTracks (rows : List TrackRow) (dets : List Detection)
    (sel : Option Int) : List Detection :=
  rows.filterMap (processTrack dets sel)

/-- The node's mutable state as touched by the two callbacks under study.
`tracker` (the ultralytics tracker) and `boxmot_tracker` are opaque foreign
objects, hence type parameters. -/
structure NodeState (τ β : Type) where
  tracker : τ
  boxmot_tracker : β
  selected_object_id : Option Int

/-- Lines 133-134: clear the selected object id. -/
def reset_tracker {τ β : Type} (s : NodeState τ β) : NodeState τ β :=
  { s with selected_object_id := none }

/-- Lines 121-131: the `set_tracked_object` service handler.  Returns the
new node state and the response's `success` flag. -/
def set_tracked_object_cb {τ β : Type} (s : NodeState τ β) (object_id : Int) :
    NodeState τ β × Bool :=
  if object_id = -1 then (reset_tracker s, true)
  else ({ s with selected_object_id := some object_id }, true)

/-- Lines 149-222: the synchronized frame callback.  `upd` is the external
`boxmot_tracker.update` call (new tracker object state and the track rows).
Returns the new node state and the list of messages published during the
call (the claim-relevant observable of `self._pub.publish`). -/
def detections_cb {τ β : Type}
    (upd : β → List (List Rat) → Image → β × List TrackRow)
    (s : NodeState τ β) (img_msg : Image) (detections_msg : DetectionArray) :
    NodeState τ β × List DetectionArray :=
  let detection_list := parseDetections detections_msg
  if 0 < detection_list.length then
    let res := upd s.boxmot_tracker detection_list img_msg
    let out :=
      if 0 < res.2.length then
        processTracks res.2 detections_msg.detections s.selected_object_id
      else []
    ({ s with boxmot_tracker := res.1 },
      [{ header := img_msg.header, detections := out }])
  else
    (s, [{ header := img_msg.header, detections := [] }])

end TrackingNode

namespace SpecTracker

/-!
Modelled from the spec: the multi-object tracking core (Detection Ingest,
Motion Predictor, Association Engine, Track Lifecycle Manager, Tracker
Facade) that the node delegates to external tracker libraries.  Its code is
not part of this repository's sources; the definitions below follow the
spec's component design (sections 3, 4 and 7) literally.
-/

/-- Modelled from the spec: a per-frame detection record — axis-aligned box
`(x1, y1, x2, y2)`, confidence score, integer class label. -/
structure SpecDetection where
  x1 : Rat
  y1 : Rat
  x2 : Rat
  y2 : Rat
  score : Rat
  cls : Int
deriving DecidableEq

/-- Modelled from the spec: Detection Ingest keeps a detection only when
its width and height are positive and its confidence lies in `[0, 1]`. -/
def validDetection (d : SpecDetection) : Bool :=
  decide (0 < d.x2 - d.x1) && decide (0 < d.y2 - d.y1) &&
    decide (0 ≤ d.score) && decide (d.score ≤ 1)

/-- Modelled from the spec: Detection Ingest — drop malformed detections,
preserve the order of the rest, never abort the frame. -/
def ingest (ds : List SpecDetection) : List SpecDetection :=
  ds.filter validDetection

/-- An axis-aligned box in corner form, also used for velocity estimates. -/
structure Box where
  x1 : Rat
  y1 : Rat
  x2 : Rat
  y2 : Rat
deriving DecidableEq

/-- Modelled from the spec: track lifecycle state. -/
inductive TrackState where
  | Tentative
  | Confirmed
  | Lost
deriving DecidableEq

/-- Modelled from the spec: a track record — unique identifier, current
box, velocity estimate, confidence, class, age counters and state. -/
structure Track where
  id : Nat
  box : Box
  vel : Box
  score : Rat
  cls : Int
  hits : Nat
  time_since_update : Nat
  st : TrackState
deriving DecidableEq

/-- Modelled from the spec: the Lifecycle Manager's collection of tracks
plus the next fresh identifier. -/
structure TrackerState where
  tracks : List Track
  next_id : Nat
deriving DecidableEq

/-- Modelled from the spec: tracker configuration — IOU gate (default 0.3),
minimum consecutive hits to confirm (default 3), maximum
`time_since_update` before removal (default 30). -/
structure TrackerCfg where
  gate : Rat
  minHits : Nat
  maxAge : Nat
deriving DecidableEq

/-- Modelled from the spec: Motion Predictor — `predicted = box +
velocity * dt` with `dt = 1`; purely functional, no mutation. -/
def predictBox (t : Track) : Box :=
  { x1 := t.box.x1 + t.vel.x1, y1 := t.box.y1 + t.vel.y1,
    x2 := t.box.x2 + t.vel.x2, y2 := t.box.y2 + t.vel.y2 }

/-- The box carried by a detection record. -/
def detBox (d : SpecDetection) : Box :=
  { x1 := d.x1, y1 := d.y1, x2 := d.x2, y2 := d.y2 }

/-- Area of a box (zero-clamped implicitly by `interArea`). -/
def boxArea (b : Box) : Rat :=
  (b.x2 - b.x1) * (b.y2 - b.y1)

/-- Intersection area of two boxes. -/
def interArea (a b : Box) : Rat :=
  let w := min a.x2 b.x2 - max a.x1 b.x1
  let h := min a.y2 b.y2 - max a.y1 b.y1
  if 0 < w ∧ 0 < h then w * h else 0

/-- Intersection-over-union of two boxes. -/
def iou (a b : Box) : Rat :=
  let i := interArea a b
  let u := boxArea a + boxArea b - i
  if u ≤ 0 then 0 else i / u

/-- Modelled from the spec: all partial injective matchings between the
given track indices and detection indices `0 .. nD-1` that use only
feasible pairs; each matching is ascending in track index. -/
def matchingsOf (feas : Nat → Nat → Bool) (nD : Nat) :
    List Nat → List (List (Nat × Nat))
  | [] => [[]]
  | i :: rest =>
    (matchingsOf feas nD rest).flatMap (fun m =>
      m :: (List.range nD).filterMap (fun j =>
        if feas i j && !(m.any (fun p => p.2 == j)) then some ((i, j) :: m)
        else none))

/-- Total cost of a matching. -/
def matchCost (costf : Nat → Nat → Rat) (m : List (Nat × Nat)) : Rat :=
  m.foldl (fun a p => a + costf p.1 p.2) 0

/-- Lexicographic order on matchings, used as the spec's deterministic
tie-break: prefer lower track index, then lower detection index. -/
def lexLt : List (Nat × Nat) → List (Nat × Nat) → Bool
  | [], [] => false
  | [], _ :: _ => true
  | _ :: _, [] => false
  | a :: as, b :: bs =>
    if a.1 < b.1 then true
    else if b.1 < a.1 then false
    else if a.2 < b.2 then true
    else if b.2 < a.2 then false
    else lexLt as bs

/-- Modelled from the spec: `a` is a strictly better assignment than `b` —
more matched pairs first, then lower total cost, then the tie-break. -/
def betterMatch (costf : Nat → Nat → Rat) (a b : List (Nat × Nat)) : Bool :=
  if a.length ≠ b.length then decide (b.length < a.length)
  else if matchCost costf a ≠ matchCost costf b then
    decide (matchCost costf a < matchCost costf b)
  else lexLt a b

/-- Pick the best matching from a candidate list (deterministic fold). -/
def chooseBest (costf : Nat → Nat → Rat) :
    List (List (Nat × Nat)) → List (Nat × Nat)
  | [] => []
  | m :: ms => ms.foldl (fun best c => if betterMatch costf c best then c else best) m

/-- Modelled from the spec: Association Engine — IOU cost `1 - IOU` with
entries below the gate infeasible (never chosen); solves the assignment
over feasible pairs; returns matched pairs, unmatched track indices and
unmatched detection indices. -/
def associate (gate : Rat) (tracks : List Track) (dets : List SpecDetection) :
    List (Nat × Nat) × List Nat × List Nat :=
  let preds := tracks.map predictBox
  let pairIou := fun (i j : Nat) =>
    match preds.get? i, dets.get? j with
    | some p, some d => iou p (detBox d)
    | _, _ => 0
  let costf := fun (i j : Nat) => 1 - pairIou i j
  let feas := fun (i j : Nat) => decide (gate ≤ pairIou i j)
  let best := chooseBest costf (matchingsOf feas dets.length (List.range tracks.length))
  let umT := (List.range tracks.length).filter (fun i => !(best.any (fun p => p.1 == i)))
  let umD := (List.range dets.length).filter (fun j => !(best.any (fun p => p.2 == j)))
  (best, umT, umD)

/-- Modelled from the spec: Lifecycle update of a matched track — box from
the detection, `time_since_update` reset, `hits` incremented, velocity
blended (equal-weight moving average of displacement), and Tentative
promoted to Confirmed at the hit threshold. -/
def matchUpdate (cfg : TrackerCfg) (t : Track) (d : SpecDetection) : Track :=
  let nb := detBox d
  let nv : Box :=
    { x1 := (t.vel.x1 + (nb.x1 - t.box.x1)) / 2,
      y1 := (t.vel.y1 + (nb.y1 - t.box.y1)) / 2,
      x2 := (t.vel.x2 + (nb.x2 - t.box.x2)) / 2,
      y2 := (t.vel.y2 + (nb.y2 - t.box.y2)) / 2 }
  { t with
    box := nb, vel := nv, score := d.score,
    hits := t.hits + 1, time_since_update := 0,
    st := if t.st = TrackState.Tentative ∧ cfg.minHits ≤ t.hits + 1 then
        TrackState.Confirmed
      else t.st }

/-- Modelled from the spec: Lifecycle update of an unmatched track — a
Tentative track is removed at once; otherwise `time_since_update` grows by
one and the track is removed when it exceeds `maxAge`. -/
def unmatchedUpdate (cfg : TrackerCfg) (t : Track) : Option Track :=
  if t.st = TrackState.Tentative then none
  else if cfg.maxAge < t.time_since_update + 1 then none
  else some { t with time_since_update := t.time_since_update + 1 }

/-- Per-track lifecycle step: a matched pair updates from its detection,
anything else ages as unmatched. -/
def stepTrackAt (cfg : TrackerCfg) (matched : List (Nat × Nat))
    (dets : List SpecDetection) (i : Nat) (t : Track) : Option Track :=
  match matched.find? (fun p => p.1 == i) with
  | some p =>
    match dets.get? p.2 with
    | some d => some (matchUpdate cfg t d)
    | none => unmatchedUpdate cfg t
  | none => unmatchedUpdate cfg t

/-- Lifecycle pass over the existing tracks, keeping survivors in order. -/
def surviveFrom (cfg : TrackerCfg) (matched : List (Nat × Nat))
    (dets : List SpecDetection) : Nat → List Track → List Track
  | _, [] => []
  | i, t :: ts =>
    match stepTrackAt cfg matched dets i t with
    | some t' => t' :: surviveFrom cfg matched dets (i + 1) ts
    | none => surviveFrom cfg matched dets (i + 1) ts

/-- Modelled from the spec: a freshly created track — Tentative, one hit,
zero age, zero velocity, a fresh unique identifier. -/
def freshTrack (nid : Nat) (d : SpecDetection) : Track :=
  { id := nid, box := detBox d, vel := { x1 := 0, y1 := 0, x2 := 0, y2 := 0 },
    score := d.score, cls := d.cls, hits := 1, time_since_update := 0,
    st := TrackState.Tentative }

/-- Modelled from the spec: instantiate one new Tentative track per
unmatched detection, consuming consecutive fresh identifiers. -/
def newTracks (dets : List SpecDetection) : Nat → List Nat → List Track × Nat
  | nid, [] => ([], nid)
  | nid, j :: js =>
    match dets.get? j with
    | none => newTracks dets nid js
    | some d =>
      let rest := newTracks dets (nid + 1) js
      (freshTrack nid d :: rest.1, rest.2)

/-- One full frame step: ingest, associate, lifecycle-update survivors,
create new tracks.  Returns the new state together with the identifiers
assigned during this step. -/
def stepFull (cfg : TrackerCfg) (s : TrackerState) (raw : List SpecDetection) :
    TrackerState × List Nat :=
  let dets := ingest raw
  let assoc := associate cfg.gate s.tracks dets
  let survivors := surviveFrom cfg assoc.1 dets 0 s.tracks
  let fresh := newTracks dets s.next_id assoc.2.2
  ({ tracks := survivors ++ fresh.1, next_id := fresh.2 },
    fresh.1.map (fun t => t.id))

/-- The Facade's per-frame output entry for a Confirmed track. -/
def confirmedOut (t : Track) : Option (Nat × Box × Int × Rat) :=
  if t.st = TrackState.Confirmed then some (t.id, t.box, t.cls, t.score)
  else none

/-- Modelled from the spec: Tracker Facade `update` — one frame step, then
emit only the Confirmed tracks. -/
def update (cfg : TrackerCfg) (s : TrackerState) (raw : List SpecDetection) :
    TrackerState × List (Nat × Box × Int × Rat) :=
  let s' := (stepFull cfg s raw).1
  (s', s'.tracks.filterMap confirmedOut)

/-- Aging every track by one unmatched step, as the spec's failure-mode
sentence for an empty detection list describes it: Tentative tracks die,
the rest gain one frame of `time_since_update` and are evicted past
`maxAge`. -/
def ageOneStep (cfg : TrackerCfg) (ts : List Track) : List Track :=
  ts.filterMap (unmatchedUpdate cfg)

/-- Run the facade over a whole session of frames. -/
def runFrames (cfg : TrackerCfg) (s : TrackerState) :
    List (List SpecDetection) → TrackerState
  | [] => s
  | f :: fs => runFrames cfg (stepFull cfg s f).1 fs

/-- All identifiers assigned over a session, in order of assignment. -/
def sessionIds (cfg : TrackerCfg) (s : TrackerState) :
    List (List SpecDetection) → List Nat
  | [] => []
  | f :: fs =>
    (stepFull cfg s f).2 ++ sessionIds cfg (stepFull cfg s f).1 fs

/-- State well-formedness: every live identifier is below `next_id` and
identifiers are pairwise distinct. -/
def wfState (s : TrackerState) : Prop :=
  (∀ t ∈ s.tracks, t.id < s.next_id) ∧ (s.tracks.map (fun t => t.id)).Nodup

/-! Lemmas about the tracker core. -/

theorem ingest_nil : ingest [] = [] := rfl

theorem matchingsOf_zero (feas : Nat → Nat → Bool) :
    ∀ l : List Nat, matchingsOf feas 0 l = [[]] := by
  intro l
  induction l with
  | nil => rfl
  | cons i rest ih => simp [matchingsOf, ih]

theorem associate_nil (gate : Rat) (tracks : List Track) :
    associate gate tracks [] = ([], List.range tracks.length, []) := by
  unfold associate
  simp [matchingsOf_zero, chooseBest]

theorem unmatchedUpdate_id (cfg : TrackerCfg) (t t' : Track)
    (h : unmatchedUpdate cfg t = some t') : t'.id = t.id := by
  unfold unmatchedUpdate at h
  split at h
  · simp at h
  · split at h
    · simp at h
    · cases h; rfl

theorem stepTrackAt_id (cfg : TrackerCfg) (m : List (Nat × Nat))
    (dets : List SpecDetection) (i : Nat) (t t' : Track)
    (h : stepTrackAt cfg m dets i t = some t') : t'.id = t.id := by
  unfold stepTrackAt at h
  split at h
  · split at h
    · cases h; rfl
    · exact unmatchedUpdate_id cfg t t' h
  · exact unmatchedUpdate_id cfg t t' h

theorem surviveFrom_nil_matched (cfg : TrackerCfg) (dets : List SpecDetection) :
    ∀ (i : Nat) (ts : List Track),
      surviveFrom cfg [] dets i ts = ageOneStep cfg ts := by
  intro i ts
  induction ts generalizing i with
  | nil => rfl
  | cons t ts ih =>
    have hstep : stepTrackAt cfg [] dets i t = unmatchedUpdate cfg t := rfl
    unfold surviveFrom
    rw [hstep]
    unfold ageOneStep
    cases h : unmatchedUpdate cfg t <;>
      simp [List.filterMap_cons, h, ih, ageOneStep]

theorem surviveFrom_ids_sublist (cfg : TrackerCfg) (m : List (Nat × Nat))
    (dets : List SpecDetection) :
    ∀ (i : Nat) (ts : List Track),
      List.Sublist ((surviveFrom cfg m dets i ts).map (fun t => t.id))
        (ts.map (fun t => t.id)) := by
  intro i ts
  induction ts generalizing i with
  | nil => simp [surviveFrom]
  | cons t ts ih =>
    unfold surviveFrom
    cases h : stepTrackAt cfg m dets i t with
    | none => exact List.Sublist.cons _ (ih (i + 1))
    | some t' =>
      simp only [List.map_cons]
      rw [stepTrackAt_id cfg m dets i t t' h]
      exact List.Sublist.cons₂ _ (ih (i + 1))

theorem newTracks_spec (dets : List SpecDetection) :
    ∀ (js : List Nat) (nid : Nat),
      nid ≤ (newTracks dets nid js).2 ∧
      (∀ t ∈ (newTracks dets nid js).1,
        nid ≤ t.id ∧ t.id < (newTracks dets nid js).2) ∧
      ((newTracks dets nid js).1.map (fun t => t.id)).Nodup := by
  intro js
  induction js with
  | nil => intro nid; exact ⟨le_refl nid, by simp [newTracks], by simp [newTracks]⟩
  | cons j js ih =>
    intro nid
    unfold newTracks
    cases h : dets.get? j with
    | none => exact ih nid
    | some d =>
      obtain ⟨ih1, ih2, ih3⟩ := ih (nid + 1)
      simp only
      refine ⟨by omega, ?_, ?_⟩
      · intro t ht
        rcases List.mem_cons.mp ht with rfl | ht
        · exact ⟨le_refl _, by simp only [freshTrack]; omega⟩
        · have := ih2 t ht
          omega
      · rw [List.map_cons, List.nodup_cons]
        refine ⟨?_, ih3⟩
        intro hmem
        rcases List.mem_map.mp hmem with ⟨t, ht, hid⟩
        have := ih2 t ht
        simp only [freshTrack] at hid
        omega

theorem stepFull_spec (cfg : TrackerCfg) (s : TrackerState)
    (raw : List SpecDetection) (h : wfState s) :
    wfState (stepFull cfg s raw).1 ∧
    s.next_id ≤ (stepFull cfg s raw).1.next_id ∧
    (∀ k ∈ (stepFull cfg s raw).2,
      s.next_id ≤ k ∧ k < (stepFull cfg s raw).1.next_id) ∧
    (stepFull cfg s raw).2.Nodup := by
  obtain ⟨hlt, hnd⟩ := h
  obtain ⟨hn1, hn2, hn3⟩ :=
    newTracks_spec (ingest raw) (associate cfg.gate s.tracks (ingest raw)).2.2
      s.next_id
  have hsub := surviveFrom_ids_sublist cfg
    (associate cfg.gate s.tracks (ingest raw)).1 (ingest raw) 0 s.tracks
  have hsurv_lt : ∀ t ∈ surviveFrom cfg
      (associate cfg.gate s.tracks (ingest raw)).1 (ingest raw) 0 s.tracks,
      t.id < s.next_id := by
    intro t ht
    have : t.id ∈ s.tracks.map (fun t => t.id) :=
      hsub.mem (List.mem_map.mpr ⟨t, ht, rfl⟩)
    rcases List.mem_map.mp this with ⟨u, hu, he⟩
    rw [← he]
    exact hlt u hu
  refine ⟨⟨?_, ?_⟩, hn1, ?_, hn3⟩
  · intro t ht
    simp only [stepFull] at ht ⊢
    rcases List.mem_append.mp ht with ht | ht
    · exact lt_of_lt_of_le (hsurv_lt t ht) hn1
    · exact (hn2 t ht).2
  · simp only [stepFull, List.map_append]
    rw [List.nodup_append]
    refine ⟨hsub.nodup hnd, hn3, ?_⟩
    intro a ha hb
    rcases List.mem_map.mp ha with ⟨t, ht, he⟩
    rcases List.mem_map.mp hb with ⟨u, hu, he'⟩
    have h1 : a < s.next_id := by rw [← he]; exact hsurv_lt t ht
    have h2 : s.next_id ≤ a := by rw [← he']; exact (hn2 u hu).1
    omega
  · intro k hk
    simp only [stepFull] at hk ⊢
    rcases List.mem_map.mp hk with ⟨t, ht, he⟩
    have := hn2 t ht
    omega

theorem run_inv (cfg : TrackerCfg) :
    ∀ (frames : List (List SpecDetection)) (s : TrackerState), wfState s →
      wfState (runFrames cfg s frames) ∧
      (sessionIds cfg s frames).Nodup ∧
      (∀ k ∈ sessionIds cfg s frames, s.next_id ≤ k) := by
  intro frames
  induction frames with
  | nil => intro s h; exact ⟨h, by simp [sessionIds], by simp [sessionIds]⟩
  | cons f fs ih =>
    intro s h
    obtain ⟨hwf', hmono, hbounds, hnd⟩ := stepFull_spec cfg s f h
    obtain ⟨ih1, ih2, ih3⟩ := ih (stepFull cfg s f).1 hwf'
    refine ⟨ih1, ?_, ?_⟩
    · show ((stepFull cfg s f).2 ++ sessionIds cfg (stepFull cfg s f).1 fs).Nodup
      rw [List.nodup_append]
      refine ⟨hnd, ih2, ?_⟩
      intro a ha hb
      have h1 := (hbounds a ha).2
      have h2 := ih3 a hb
      omega
    · intro k hk
      rcases List.mem_append.mp hk with hk | hk
      · exact (hbounds k hk).1
      · exact le_trans hmono (ih3 k hk)

theorem stepFull_empty (cfg : TrackerCfg) (s : TrackerState) :
    stepFull cfg s [] =
      ({ tracks := ageOneStep cfg s.tracks, next_id := s.next_id }, []) := by
  simp only [stepFull, ingest_nil, associate_nil]
  simp only [newTracks, List.append_nil, List.map_nil]
  rw [surviveFrom_nil_matched]

/-- C1 (spec-modelled): on an empty detection list the Tracker Facade
returns normally — the new state is the old one with every track aged by
one unmatched step (Tentative tracks die, the rest gain one frame of
`time_since_update` and are evicted past `maxAge`), no identifier is
consumed, and the output is the Confirmed tracks of that aged state. -/
theorem C1_facade_empty_input (cfg : TrackerCfg) (s : TrackerState) :
    (update cfg s []).1.tracks = ageOneStep cfg s.tracks ∧
    (update cfg s []).1.next_id = s.next_id ∧
    (update cfg s []).2 = (ageOneStep cfg s.tracks).filterMap confirmedOut := by
  unfold update
  rw [stepFull_empty]
  exact ⟨rfl, rfl, rfl⟩

/-- C5 (spec-modelled): from any well-formed state, over any session of
frames, live identifiers stay pairwise distinct, and every identifier
assigned during the session is assigned exactly once and differs from
every identifier alive before the session — an identifier, once assigned,
is never reused for a different track. -/
theorem C5_ids_never_reused (cfg : TrackerCfg) (s : TrackerState)
    (frames : List (List SpecDetection)) (h : wfState s) :
    wfState (runFrames cfg s frames) ∧
    (sessionIds cfg s frames).Nodup ∧
    (∀ k ∈ sessionIds cfg s frames, ∀ t ∈ s.tracks, t.id ≠ k) := by
  obtain ⟨h1, h2, h3⟩ := run_inv cfg frames s h
  refine ⟨h1, h2, ?_⟩
  intro k hk t ht
  have hk' := h3 k hk
  have ht' := h.1 t ht
  omega

/-- A concrete detection for the tracker-core witnesses. -/
def specDetA : SpecDetection :=
  { x1 := 0, y1 := 0, x2 := 10, y2 := 10, score := 9/10, cls := 0 }

/-- A concrete pre-existing Confirmed track with identifier 0. -/
def specTrack0 : Track :=
  { id := 0, box := { x1 := 40, y1 := 40, x2 := 50, y2 := 50 },
    vel := { x1 := 0, y1 := 0, x2 := 0, y2 := 0 }, score := 4/5, cls := 1,
    hits := 5, time_since_update := 0, st := TrackState.Confirmed }

/-- A concrete tracker configuration (defaults of the spec). -/
def specCfg : TrackerCfg := { gate := 3/10, minHits := 3, maxAge := 30 }

/-- A concrete well-formed initial state. -/
def specState0 : TrackerState := { tracks := [specTrack0], next_id := 1 }

/-- A concrete two-frame session: one detection, then an empty frame. -/
def specFrames : List (List SpecDetection) := [[specDetA], []]

/-- C5 witness: the concrete session from `specState0` keeps identifiers
unique and never hands the session's fresh identifiers to the old track. -/
theorem C5_witness :
    wfState specState0 ∧
    (wfState (runFrames specCfg specState0 specFrames) ∧
     (sessionIds specCfg specState0 specFrames).Nodup ∧
     (∀ k ∈ sessionIds specCfg specState0 specFrames,
        ∀ t ∈ specState0.tracks, t.id ≠ k)) :=
  ⟨⟨by intro t ht; simp [specState0, specTrack0] at ht; simp [ht, specTrack0, specState0],
    by simp [specState0]⟩,
   C5_ids_never_reused specCfg specState0 specFrames
    ⟨by intro t ht; simp [specState0, specTrack0] at ht; simp [ht, specTrack0, specState0],
     by simp [specState0]⟩⟩

end SpecTracker

namespace TrackingNode

/-! Helper lemmas about the node's parse loop and track loop. -/

theorem foldl_appendRow (l : List Detection) (acc : List (List Rat)) :
    l.foldl (fun a d => a ++ [detectionRow d]) acc = acc ++ l.map detectionRow := by
  induction l generalizing acc with
  | nil => simp
  | cons d l ih => simp [ih, List.append_assoc]

theorem parseDetections_eq_map (msg : DetectionArray) :
    parseDetections msg = msg.detections.map detectionRow := by
  simpa using foldl_appendRow msg.detections []

theorem parseDetections_length (msg : DetectionArray) :
    (parseDetections msg).length = msg.detections.length := by
  rw [parseDetections_eq_map, List.length_map]

theorem selSkip_none (r : TrackRow) : selSkip none r = false := rfl

theorem processTrack_none (dets : List Detection) (r : TrackRow) :
    processTrack dets none r = (pyGet dets r.det_ind).map (applyTrack r) := by
  unfold processTrack
  cases pyGet dets r.det_ind <;> simp [selSkip_none]

theorem processTracks_none (rows : List TrackRow) (dets : List Detection) :
    processTracks rows dets none =
      rows.filterMap (fun r => (pyGet dets r.det_ind).map (applyTrack r)) := by
  unfold processTracks
  induction rows with
  | nil => rfl
  | cons r rows ih => simp [List.filterMap_cons, processTrack_none, ih]

theorem mem_processTracks_id (rows : List TrackRow) (dets : List Detection)
    (v : Int) (hv : v ≠ -1) :
    ∀ d ∈ processTracks rows dets (some v), d.id = toString v := by
  intro d hd
  rcases List.mem_filterMap.mp hd with ⟨r, _, hr⟩
  unfold processTrack at hr
  split at hr
  · exact absurd hr (by simp)
  · split at hr
    · exact absurd hr (by simp)
    · rename_i hskip
      have hid : r.id = some v := by
        by_contra hne
        exact hskip (by simp [selSkip, if_neg hv, hne])
      cases hr
      simp [applyTrack, trackIdStr, hid]

/-! ### Claim theorems about detection ingest and publishing -/

/-- C6: the parse loop preserves input order — the list passed to the
tracker has one row per input detection, and the `i`-th row is
`[cx - w/2, cy - h/2, cx + w/2, cy + h/2, score, class_id]` computed from
the `i`-th input detection. -/
theorem C6_parse_preserves_order (msg : DetectionArray) :
    (parseDetections msg).length = msg.detections.length ∧
    ∀ i : Nat, ∀ h : i < msg.detections.length,
      (parseDetections msg).get? i = some
        [ (msg.detections.get ⟨i, h⟩).bbox.center.position.x -
            (msg.detections.get ⟨i, h⟩).bbox.size.x / 2,
          (msg.detections.get ⟨i, h⟩).bbox.center.position.y -
            (msg.detections.get ⟨i, h⟩).bbox.size.y / 2,
          (msg.detections.get ⟨i, h⟩).bbox.center.position.x +
            (msg.detections.get ⟨i, h⟩).bbox.size.x / 2,
          (msg.detections.get ⟨i, h⟩).bbox.center.position.y +
            (msg.detections.get ⟨i, h⟩).bbox.size.y / 2,
          (msg.detections.get ⟨i, h⟩).score,
          ((msg.detections.get ⟨i, h⟩).class_id : Rat) ] := by
  refine ⟨parseDetections_length msg, ?_⟩
  intro i h
  rw [parseDetections_eq_map, List.get?_map, List.get?_eq_get h]
  rfl

/-- C6 witness: a concrete two-detection message, checked at index 1. -/
theorem C6_witness :
    (1 : Nat) < 2 ∧
    (parseDetections
      { header := { stamp_sec := 0, stamp_nanosec := 0, frame_id := "cam" },
        detections :=
          [ { class_id := 0, class_name := "person", score := 9/10, id := "",
              bbox := { center := { position := { x := 10, y := 20 }, theta := 0 },
                        size := { x := 4, y := 6 } },
              mask := [], keypoints := [] },
            { class_id := 2, class_name := "car", score := 1/2, id := "",
              bbox := { center := { position := { x := 100, y := 50 }, theta := 0 },
                        size := { x := 10, y := 8 } },
              mask := [], keypoints := [] } ] }).get? 1 =
      some [95, 46, 105, 54, 1/2, 2] := by
  refine ⟨by decide, ?_⟩
  have h := (C6_parse_preserves_order
    { header := { stamp_sec := 0, stamp_nanosec := 0, frame_id := "cam" },
      detections :=
        [ { class_id := 0, class_name := "person", score := 9/10, id := "",
            bbox := { center := { position := { x := 10, y := 20 }, theta := 0 },
                      size := { x := 4, y := 6 } },
            mask := [], keypoints := [] },
          { class_id := 2, class_name := "car", score := 1/2, id := "",
            bbox := { center := { position := { x := 100, y := 50 }, theta := 0 },
                      size := { x := 10, y := 8 } },
            mask := [], keypoints := [] } ] }).2 1 (by decide)
  rw [h]
  norm_num

/-- A detection that the spec's ingest rules call malformed twice over:
non-positive width and confidence above 1. -/
def badDet : Detection :=
  { class_id := 0, class_name := "person", score := 3/2, id := "",
    bbox := { center := { position := { x := 5, y := 5 }, theta := 0 },
              size := { x := -4, y := 2 } },
    mask := [], keypoints := [] }

/-- A message whose only detection is `badDet`. -/
def badMsg : DetectionArray :=
  { header := { stamp_sec := 0, stamp_nanosec := 0, frame_id := "cam" },
    detections := [badDet] }

/-- C2 counterexample: the parse loop performs no validation — a detection
with non-positive width and out-of-range confidence still contributes its
row to the list passed to the tracker, so it is not dropped. -/
theorem C2_counterexample :
    (badDet.bbox.size.x ≤ 0 ∧ 1 < badDet.score) ∧
    parseDetections badMsg = [detectionRow badDet] ∧
    (parseDetections badMsg).length = badMsg.detections.length := by
  refine ⟨⟨by norm_num [badDet], by norm_num [badDet]⟩, ?_, ?_⟩
  · rfl
  · rfl

/-- C2 amended: the detection ingest of the node performs no validation:
every input detection — including one with non-positive width/height or
confidence outside `[0, 1]` — contributes exactly one entry to the list
passed to the tracker, and the frame is never aborted. -/
theorem C2_amended_no_filtering (msg : DetectionArray) :
    (parseDetections msg).length = msg.detections.length ∧
    ∀ i : Nat, ∀ h : i < msg.detections.length,
      (parseDetections msg).get? i = some (detectionRow (msg.detections.get ⟨i, h⟩)) := by
  refine ⟨parseDetections_length msg, ?_⟩
  intro i h
  rw [parseDetections_eq_map, List.get?_map, List.get?_eq_get h]
  rfl

/-- C2 amended witness: the malformed detection's row is the sole entry. -/
theorem C2_amended_witness :
    (0 : Nat) < 1 ∧ (parseDetections badMsg).get? 0 = some (detectionRow badDet) := by
  exact ⟨by decide, (C2_amended_no_filtering badMsg).2 0 (by decide)⟩

/-- The single message published by one invocation of the callback. -/
theorem detections_cb_out {τ β : Type}
    (upd : β → List (List Rat) → Image → β × List TrackRow)
    (s : NodeState τ β) (img : Image) (msg : DetectionArray) :
    (detections_cb upd s img msg).2 =
      [{ header := img.header,
         detections :=
           if 0 < (parseDetections msg).length then
             if 0 < (upd s.boxmot_tracker (parseDetections msg) img).2.length then
               processTracks (upd s.boxmot_tracker (parseDetections msg) img).2
                 msg.detections s.selected_object_id
             else []
           else [] }] := by
  unfold detections_cb
  by_cases h : 0 < (parseDetections msg).length <;> simp [h]

/-- The node state after one invocation of the callback. -/
theorem detections_cb_state {τ β : Type}
    (upd : β → List (List Rat) → Image → β × List TrackRow)
    (s : NodeState τ β) (img : Image) (msg : DetectionArray) :
    (detections_cb upd s img msg).1 =
      if 0 < (parseDetections msg).length then
        { s with boxmot_tracker := (upd s.boxmot_tracker (parseDetections msg) img).1 }
      else s := by
  unfold detections_cb
  by_cases h : 0 < (parseDetections msg).length <;> simp [h]

/-- C9: every invocation of the frame callback publishes exactly one
`DetectionArray`, whose header is the incoming image's header — also when
the detection list is empty or the tracker returns no tracks. -/
theorem C9_single_publish {τ β : Type}
    (upd : β → List (List Rat) → Image → β × List TrackRow)
    (s : NodeState τ β) (img : Image) (msg : DetectionArray) :
    (detections_cb upd s img msg).2.length = 1 ∧
    ∀ m ∈ (detections_cb upd s img msg).2, m.header = img.header := by
  unfold detections_cb
  by_cases h : 0 < (parseDetections msg).length <;> simp [h]

/-! Concrete fixtures used by the witnesses. -/

/-- A concrete image message. -/
def fixImg : Image :=
  { header := { stamp_sec := 1, stamp_nanosec := 2, frame_id := "cam" },
    height := 480, width := 640, data := [0, 1, 2] }

/-- A concrete detection. -/
def fixDetA : Detection :=
  { class_id := 0, class_name := "person", score := 9/10, id := "",
    bbox := { center := { position := { x := 10, y := 20 }, theta := 0 },
              size := { x := 4, y := 6 } },
    mask := [{ x := 1, y := 1 }], keypoints := [] }

/-- A second concrete detection. -/
def fixDetB : Detection :=
  { class_id := 2, class_name := "car", score := 1/2, id := "",
    bbox := { center := { position := { x := 100, y := 50 }, theta := 1/4 },
              size := { x := 10, y := 8 } },
    mask := [], keypoints := [{ x := 3, y := 4 }] }

/-- A concrete detection message holding `fixDetA` and `fixDetB`. -/
def fixMsg : DetectionArray :=
  { header := { stamp_sec := 1, stamp_nanosec := 2, frame_id := "cam" },
    detections := [fixDetA, fixDetB] }

/-- A track row pointing at detection 0, carrying track id 7. -/
def fixRow0 : TrackRow :=
  { x1 := 8, y1 := 17, x2 := 12, y2 := 23, id := some 7, conf := 9/10,
    cls := 0, det_ind := 0 }

/-- A track row with a negative detection index (`-1`, last element). -/
def fixRowNeg : TrackRow :=
  { x1 := 95, y1 := 46, x2 := 105, y2 := 54, id := some 9, conf := 1/2,
    cls := 2, det_ind := -1 }

/-- A track row whose detection index is out of range. -/
def fixRowOut : TrackRow :=
  { x1 := 0, y1 := 0, x2 := 1, y2 := 1, id := some 3, conf := 1/2,
    cls := 0, det_ind := 5 }

/-- A track row carrying no track id. -/
def fixRowNoId : TrackRow :=
  { x1 := 95, y1 := 46, x2 := 105, y2 := 54, id := none, conf := 1/2,
    cls := 2, det_ind := 1 }

/-- A concrete external tracker call returning one row for detection 0. -/
def fixUpd : Unit → List (List Rat) → Image → Unit × List TrackRow :=
  fun b _ _ => (b, [fixRow0])

/-- A concrete node state with the given selection. -/
def fixState (sel : Option Int) : NodeState Unit Unit :=
  { tracker := (), boxmot_tracker := (), selected_object_id := sel }

/-- C9 witness: on the concrete fixtures, exactly one message is
published and its header equals the image header. -/
theorem C9_witness :
    (detections_cb fixUpd (fixState none) fixImg fixMsg).2.length = 1 ∧
    ({ header := fixImg.header,
       detections := [applyTrack fixRow0 fixDetA] } : DetectionArray).header =
      fixImg.header :=
  ⟨(C9_single_publish fixUpd (fixState none) fixImg fixMsg).1,
   (C9_single_publish fixUpd (fixState none) fixImg fixMsg).2
     { header := fixImg.header, detections := [applyTrack fixRow0 fixDetA] }
     (List.mem_singleton.mpr rfl)⟩

/-- C3: when a selection is set (not `None`, not `-1`), every detection in
the published message carries the selected identifier (as the decimal
string the node renders); when the selection is unset, the published
detections are exactly the unfiltered loop output — every track row that
finds its detection is published, whatever its identifier. -/
theorem C3_selection_filter {τ β : Type}
    (upd : β → List (List Rat) → Image → β × List TrackRow)
    (s : NodeState τ β) (img : Image) (msg : DetectionArray) (v : Int) :
    (s.selected_object_id = some v → v ≠ -1 →
      ∀ m ∈ (detections_cb upd s img msg).2, ∀ d ∈ m.detections,
        d.id = toString v) ∧
    (s.selected_object_id = none → 0 < (parseDetections msg).length →
      ∀ m ∈ (detections_cb upd s img msg).2,
        m.detections =
          (upd s.boxmot_tracker (parseDetections msg) img).2.filterMap
            (fun r => (pyGet msg.detections r.det_ind).map (applyTrack r))) := by
  constructor
  · intro hsel hv m hm d hd
    rw [detections_cb_out] at hm
    rcases List.mem_singleton.mp hm with rfl
    simp only at hd
    split at hd
    · split at hd
      · rw [hsel] at hd
        exact mem_processTracks_id _ _ v hv d hd
      · exact absurd hd (by simp)
    · exact absurd hd (by simp)
  · intro hsel hp m hm
    rw [detections_cb_out] at hm
    rcases List.mem_singleton.mp hm with rfl
    simp only [if_pos hp]
    split
    · rw [hsel, processTracks_none]
    · rename_i hr
      have hnil : (upd s.boxmot_tracker (parseDetections msg) img).2 = [] :=
        List.length_eq_zero.mp (by omega)
      rw [hnil]
      rfl

/-- C3 witness: with selection 7 the published detection's id is `"7"`;
with no selection the published list equals the unfiltered loop output. -/
theorem C3_witness :
    (applyTrack fixRow0 fixDetA).id = toString (7 : Int) ∧
    ({ header := fixImg.header,
       detections := [applyTrack fixRow0 fixDetA] } : DetectionArray).detections =
      (fixUpd (fixState none).boxmot_tracker (parseDetections fixMsg) fixImg).2.filterMap
        (fun r => (pyGet fixMsg.detections r.det_ind).map (applyTrack r)) :=
  ⟨(C3_selection_filter fixUpd (fixState (some 7)) fixImg fixMsg 7).1 rfl (by decide)
      { header := fixImg.header, detections := [applyTrack fixRow0 fixDetA] }
      (List.mem_singleton.mpr rfl)
      (applyTrack fixRow0 fixDetA) (List.mem_singleton.mpr rfl),
   (C3_selection_filter fixUpd (fixState none) fixImg fixMsg 7).2 rfl (by decide)
      { header := fixImg.header, detections := [applyTrack fixRow0 fixDetA] }
      (List.mem_singleton.mpr rfl)⟩

/-- C4: the selection never touches tracking state — the service handler
changes only `selected_object_id` (both tracker objects are left as they
were), and the evolution of the boxmot tracker in the frame callback is
the same for any two states sharing the same tracker object, whatever
their selections. -/
theorem C4_selection_presentation_only {τ β : Type}
    (upd : β → List (List Rat) → Image → β × List TrackRow)
    (s s2 : NodeState τ β) (img : Image) (msg : DetectionArray) (oid : Int) :
    ((set_tracked_object_cb s oid).1.tracker = s.tracker ∧
     (set_tracked_object_cb s oid).1.boxmot_tracker = s.boxmot_tracker) ∧
    (s.boxmot_tracker = s2.boxmot_tracker →
      (detections_cb upd s img msg).1.boxmot_tracker =
        (detections_cb upd s2 img msg).1.boxmot_tracker) := by
  constructor
  · by_cases h : oid = -1 <;> simp [set_tracked_object_cb, reset_tracker, h]
  · intro h
    rw [detections_cb_state, detections_cb_state]
    by_cases hp : 0 < (parseDetections msg).length <;> simp [hp, h]

/-- C4 witness: a state with selection 3 and one with no selection, same
tracker object, evolve the boxmot tracker identically. -/
theorem C4_witness :
    ((set_tracked_object_cb (fixState (some 3)) 5).1.tracker =
        (fixState (some 3)).tracker ∧
     (set_tracked_object_cb (fixState (some 3)) 5).1.boxmot_tracker =
        (fixState (some 3)).boxmot_tracker) ∧
    (detections_cb fixUpd (fixState (some 3)) fixImg fixMsg).1.boxmot_tracker =
      (detections_cb fixUpd (fixState none) fixImg fixMsg).1.boxmot_tracker :=
  ⟨(C4_selection_presentation_only fixUpd (fixState (some 3)) (fixState none)
      fixImg fixMsg 5).1,
   (C4_selection_presentation_only fixUpd (fixState (some 3)) (fixState none)
      fixImg fixMsg 5).2 rfl⟩

/-- C7: the frame callback is deterministic — from identical node state on
identical image and detection messages it yields identical new state and
identical published messages; it takes no clock or other hidden input. -/
theorem C7_deterministic {τ β : Type}
    (upd : β → List (List Rat) → Image → β × List TrackRow)
    (s1 s2 : NodeState τ β) (img1 img2 : Image) (msg1 msg2 : DetectionArray)
    (hs : s1 = s2) (hi : img1 = img2) (hm : msg1 = msg2) :
    detections_cb upd s1 img1 msg1 = detections_cb upd s2 img2 msg2 := by
  rw [hs, hi, hm]

/-- C7 witness: two runs on the concrete fixtures coincide. -/
theorem C7_witness :
    detections_cb fixUpd (fixState none) fixImg fixMsg =
      detections_cb fixUpd (fixState none) fixImg fixMsg :=
  C7_deterministic fixUpd (fixState none) (fixState none) fixImg fixImg
    fixMsg fixMsg rfl rfl rfl

/-! Python-indexing lemmas for the reverse lookup of line 194. -/

theorem pyGet_eq_none {α : Type} (l : List α) (i : Int)
    (h : (l.length : Int) ≤ i ∨ i < -(l.length : Int)) : pyGet l i = none := by
  unfold pyGet pyIndex
  rcases h with h | h
  · have h0 : (0 : Int) ≤ i := le_trans (by positivity) h
    rw [if_pos h0, if_neg (by omega)]
  · rw [if_neg (by omega), if_neg (by omega)]

theorem pyGet_neg {α : Type} (l : List α) (i : Int)
    (h1 : -(l.length : Int) ≤ i) (h2 : i < 0) :
    pyGet l i = l.get? ((l.length : Int) + i).toNat := by
  unfold pyGet pyIndex
  rw [if_neg (by omega), if_pos h1]

theorem pyGet_inrange {α : Type} (l : List α) (i : Int)
    (h1 : -(l.length : Int) ≤ i) (h2 : i < (l.length : Int)) :
    ∃ d, pyGet l i = some d := by
  unfold pyGet pyIndex
  by_cases h0 : (0 : Int) ≤ i
  · rw [if_pos h0, if_pos h2]
    have hlt : i.toNat < l.length := by omega
    exact ⟨l.get ⟨i.toNat, hlt⟩, List.get?_eq_get hlt⟩
  · rw [if_neg h0, if_pos h1]
    have hlt : ((l.length : Int) + i).toNat < l.length := by omega
    exact ⟨l.get ⟨((l.length : Int) + i).toNat, hlt⟩, List.get?_eq_get hlt⟩

/-- C8: the reverse lookup `detections_msg.detections[int(t[-1])]` — an
index at or beyond the list length (or below minus the length) makes the
row contribute nothing (the raised `IndexError` is swallowed into a
`continue`); a negative in-range index aliases the detection counted from
the end; any in-range index yields a candidate published detection. -/
theorem C8_reverse_lookup (dets : List Detection) (r : TrackRow)
    (sel : Option Int) :
    (((dets.length : Int) ≤ r.det_ind ∨ r.det_ind < -(dets.length : Int)) →
      processTracks [r] dets sel = []) ∧
    ((-(dets.length : Int) ≤ r.det_ind → r.det_ind < 0 →
      pyGet dets r.det_ind = dets.get? ((dets.length : Int) + r.det_ind).toNat)) ∧
    ((-(dets.length : Int) ≤ r.det_ind → r.det_ind < (dets.length : Int) →
      ∃ d, pyGet dets r.det_ind = some d ∧
        processTracks [r] dets none = [applyTrack r d])) := by
  refine ⟨?_, ?_, ?_⟩
  · intro h
    have hnone := pyGet_eq_none dets r.det_ind h
    simp [processTracks, List.filterMap_cons, processTrack, hnone]
  · intro h1 h2
    exact pyGet_neg dets r.det_ind h1 h2
  · intro h1 h2
    rcases pyGet_inrange dets r.det_ind h1 h2 with ⟨d, hd⟩
    refine ⟨d, hd, ?_⟩
    simp [processTracks, List.filterMap_cons, processTrack_none, hd]

/-- C8 witness: index 5 on a two-element list is skipped; index `-1`
aliases the last element and is published. -/
theorem C8_witness :
    processTracks [fixRowOut] fixMsg.detections none = [] ∧
    pyGet fixMsg.detections fixRowNeg.det_ind =
      fixMsg.detections.get?
        ((fixMsg.detections.length : Int) + fixRowNeg.det_ind).toNat ∧
    ∃ d, pyGet fixMsg.detections fixRowNeg.det_ind = some d ∧
      processTracks [fixRowNeg] fixMsg.detections none = [applyTrack fixRowNeg d] :=
  ⟨(C8_reverse_lookup fixMsg.detections fixRowOut none).1 (by decide),
   (C8_reverse_lookup fixMsg.detections fixRowNeg none).2.1 (by decide) (by decide),
   (C8_reverse_lookup fixMsg.detections fixRowNeg none).2.2 (by decide) (by decide)⟩

/-- C10: every published detection is the looked-up input detection with
exactly the tracked-box overwrite and the id string set — its class id,
class name, score, mask, keypoints and bbox orientation are untouched,
its bbox centre and size become the track's xywh box, and its id becomes
the track id as a decimal string (empty when the box carries none). -/
theorem C10_published_detection_fields (rows : List TrackRow)
    (dets : List Detection) (sel : Option Int) :
    (∀ x ∈ processTracks rows dets sel,
      ∃ r, r ∈ rows ∧ ∃ d, pyGet dets r.det_ind = some d ∧ x = applyTrack r d) ∧
    (∀ (r : TrackRow) (d : Detection),
      (applyTrack r d).class_id = d.class_id ∧
      (applyTrack r d).class_name = d.class_name ∧
      (applyTrack r d).score = d.score ∧
      (applyTrack r d).mask = d.mask ∧
      (applyTrack r d).keypoints = d.keypoints ∧
      (applyTrack r d).bbox.center.theta = d.bbox.center.theta ∧
      (applyTrack r d).bbox.center.position.x = (r.x1 + r.x2) / 2 ∧
      (applyTrack r d).bbox.center.position.y = (r.y1 + r.y2) / 2 ∧
      (applyTrack r d).bbox.size.x = r.x2 - r.x1 ∧
      (applyTrack r d).bbox.size.y = r.y2 - r.y1 ∧
      (applyTrack r d).id = trackIdStr r ∧
      (r.id = none → (applyTrack r d).id = "") ∧
      (∀ i : Int, r.id = some i → (applyTrack r d).id = toString i)) := by
  constructor
  · intro x hx
    rcases List.mem_filterMap.mp hx with ⟨r, hr, hp⟩
    refine ⟨r, hr, ?_⟩
    unfold processTrack at hp
    split at hp
    · exact absurd hp (by simp)
    · rename_i d0 heq
      split at hp
      · exact absurd hp (by simp)
      · cases hp
        exact ⟨d0, heq, rfl⟩
  · intro r d
    refine ⟨rfl, rfl, rfl, rfl, rfl, rfl, rfl, rfl, rfl, rfl, rfl, ?_, ?_⟩
    · intro h
      simp [applyTrack, trackIdStr, h]
    · intro i h
      simp [applyTrack, trackIdStr, h]

/-- C10 witness: the published fixture detection is `applyTrack` of its
row and looked-up detection, and a row with no id yields an empty id
string while one with id 9 yields `"9"`. -/
theorem C10_witness :
    (∃ r, r ∈ [fixRow0] ∧ ∃ d, pyGet fixMsg.detections r.det_ind = some d ∧
      applyTrack fixRow0 fixDetA = applyTrack r d) ∧
    (applyTrack fixRowNoId fixDetB).class_name = fixDetB.class_name ∧
    (applyTrack fixRowNoId fixDetB).id = "" ∧
    (applyTrack fixRowNeg fixDetB).id = toString (9 : Int) :=
  ⟨(C10_published_detection_fields [fixRow0] fixMsg.detections none).1
      (applyTrack fixRow0 fixDetA) (List.mem_singleton.mpr rfl),
   ((C10_published_detection_fields [fixRow0] fixMsg.detections none).2
      fixRowNoId fixDetB).2.1,
   ((C10_published_detection_fields [fixRow0] fixMsg.detections none).2
      fixRowNoId fixDetB).2.2.2.2.2.2.2.2.2.2.2.1 rfl,
   ((C10_published_detection_fields [fixRow0] fixMsg.detections none).2
      fixRowNeg fixDetB).2.2.2.2.2.2.2.2.2.2.2.2 9 rfl⟩

end TrackingNode
